import Mathlib

set_option maxRecDepth 10000

/-!
Formal model of the authentication core of the sci.platformai.org backend
(`backend/auth.py`, `backend/app.py`, `backend/database.py`): the session
token codec, the SSO exchange client, the credential hasher, the user
directory, and the local login/registration flows, together with theorems
about their contracts.

Modelling conventions:
* Machine-level concerns (HTTP transport, SQLite storage engine) are
  abstracted: the directory is a list of rows in rowid order, an HTTP
  response is a status code plus a parsed JSON body.
* `time.time()` readings are passed in explicitly; `create_jwt` reads the
  clock twice in the source, so it takes two readings.
* Cryptographic primitives (HMAC-SHA256 signing, SHA-256 password
  hashing) are modelled as concrete deterministic functions; only
  determinism and functional dependence on their inputs matter for any
  claim considered here.
* Fallible operations return `Option` or `Except`; an exception caught in
  the source becomes a `none`/`.error` result, and the totality of the
  Lean functions models the source-level guarantee that the operation
  never raises past its boundary.
-/

/-- Seconds in the session-token validity window: 7 days (auth.py line 19,
`JWT_EXPIRY = 60 * 60 * 24 * 7`). -/
def JWT_EXPIRY : Nat := 60 * 60 * 24 * 7

/-- The process-wide signing secret (auth.py line 17; the documented default
value, used identically by issuing and verification). -/
def JWT_SECRET : String := "sci_jwt_s3cr3t_k3y_ch4ng3_m3"

/-- The JWT claim set built by `create_jwt` (auth.py lines 36-42): subject id,
display name, role, issued-at and expiry timestamps. -/
structure Payload where
  sub : String
  name : String
  role : String
  iat : Nat
  exp : Nat
deriving DecidableEq

/-- Numeric code of a string, used by the model MAC below. -/
def strCode (s : String) : Nat :=
  s.data.foldl (fun a c => a * 131 + c.toNat + 1) 7

/-- Model of the HS256 MAC used by `jwt.encode`/`jwt.decode`: a deterministic
keyed function of the payload and the secret.  Its cryptographic strength is
irrelevant to the claims; only determinism is used. -/
def jwt_sign (p : Payload) (secret : String) : Nat :=
  strCode secret * 1000003 + strCode p.sub * 97 + strCode p.name * 89 +
    strCode p.role * 83 + p.iat * 79 + p.exp * 73

/-- A candidate token string as seen by `verify_jwt`: the empty string, some
other string that does not decode as a JWT, or a well-formed encoding of a
payload together with the signature value attached to it.  (A well-formed JWT
encoding is never the empty string.) -/
inductive Token where
  | emptyStr : Token
  | malformed : Nat → Token
  | signed : Payload → Nat → Token
deriving DecidableEq

/-- Python truthiness of the underlying token string: only the empty string is
falsy. -/
def Token.isFalsy : Token → Bool
  | .emptyStr => true
  | _ => false

/-- `create_jwt` (auth.py lines 34-43).  The source reads the clock twice —
`"iat": int(time.time())` then `"exp": int(time.time()) + JWT_EXPIRY` — so the
two readings are passed as `t1` and `t2` (by clock monotonicity `t1 ≤ t2`,
and almost always `t1 = t2`). -/
def create_jwt (user_id user_name role : String) (t1 t2 : Nat) : Token :=
  let p : Payload :=
    { sub := user_id, name := user_name, role := role, iat := t1,
      exp := t2 + JWT_EXPIRY }
  .signed p (jwt_sign p JWT_SECRET)

/-- `verify_jwt` (auth.py lines 46-55): `jwt.decode` checks the signature and
then the `exp` claim (PyJWT treats `exp ≤ now` as expired); both
`ExpiredSignatureError` and `InvalidTokenError` are caught and `None` is
returned, so the function is total and never raises to its caller. -/
def verify_jwt (t : Token) (now : Nat) : Option Payload :=
  match t with
  | .emptyStr => none
  | .malformed _ => none
  | .signed p sig =>
    if sig ≠ jwt_sign p JWT_SECRET then none
    else if p.exp ≤ now then none
    else some p

/-- The invalid-token cases: malformed encoding (including the empty string),
signature mismatch, or elapsed expiry at verification time. -/
def invalidToken (t : Token) (now : Nat) : Prop :=
  match t with
  | .emptyStr => True
  | .malformed _ => True
  | .signed p sig => sig ≠ jwt_sign p JWT_SECRET ∨ p.exp ≤ now

/-- A parsed JSON value, as produced by `resp.json()` in the SSO exchange
client (auth.py lines 85-102). -/
inductive JVal where
  | jnull : JVal
  | jbool : Bool → JVal
  | jnum : Int → JVal
  | jstr : String → JVal
  | jarr : List JVal → JVal
  | jobj : List (String × JVal) → JVal

/-- Key lookup in a JSON object, `none` when the key is absent (Python
`dict.get(k)` distinguishes an absent key from a present `null` only through
the default argument, modelled by `jGetD`). -/
def jLookup : List (String × JVal) → String → Option JVal
  | [], _ => none
  | (k, v) :: rest, key => if k = key then some v else jLookup rest key

/-- Python `d.get(k, default)`: the stored value when the key is present (even
when that value is `null`), the default otherwise. -/
def jGetD (fs : List (String × JVal)) (k : String) (d : JVal) : JVal :=
  (jLookup fs k).getD d

/-- Python truthiness of a JSON value. -/
def truthy : JVal → Bool
  | .jnull => false
  | .jbool b => b
  | .jnum n => n != 0
  | .jstr s => s != ""
  | .jarr xs => !xs.isEmpty
  | .jobj fs => !fs.isEmpty

/-- Python `d.get(k) or fallback`: the looked-up value when present and truthy,
the fallback otherwise (`d.get(k)` yields `None`, which is falsy, when the key
is absent). -/
def pyOrJ (looked : Option JVal) (fallback : JVal) : JVal :=
  match looked with
  | some v => if truthy v then v else fallback
  | none => fallback

/-- Python `str()` applied to a JSON value.  The container cases stand in for
the corresponding Python reprs; like them they are nonempty, which is all the
downstream emptiness checks observe. -/
def pyStr : JVal → String
  | .jnull => "None"
  | .jbool true => "True"
  | .jbool false => "False"
  | .jnum n => toString n
  | .jstr s => s
  | .jarr _ => "[...]"
  | .jobj _ => "\x7b...\x7d"

/-- The outcome of the remote validation call made by `exchange_sso_token`:
either the HTTP round-trip raised (network error, timeout), or a response
arrived with a status code and a body (`none` when `resp.json()` raises on an
unparseable body). -/
inductive SsoResponse where
  | netError : SsoResponse
  | ok : Nat → Option JVal → SsoResponse

/-- The identity dict built by `exchange_sso_token` on a 200 response
(auth.py lines 89-102): only `user_id` passes through Python `str()`. -/
structure SsoUserInfo where
  user_id : String
  user_name : JVal
  api_key : JVal
  credit : JVal
  token : JVal
  role : JVal

/-- `exchange_sso_token` (auth.py lines 72-110).  The `try`/`except` around
the whole body turns every raised exception — network failure, unparseable
JSON, or an envelope level that is not a dict (so that `.get` raises
`AttributeError`) — into a `None` result; a non-200 status also yields
`None`.  On a 200 dict body it builds the identity dict via the tolerant
envelope parsing: fields under `data` or top-level, user fields under
`user_info` or at the `data` level, entitlements under `balance` or at the
`data` level. -/
def exchange_sso_token (resp : SsoResponse) : Option SsoUserInfo :=
  match resp with
  | .netError => none
  | .ok status body =>
    if status = 200 then
      match body with
      | none => none
      | some b =>
        match b with
        | .jobj bfs =>
          match pyOrJ (jLookup bfs "data") b with
          | .jobj dfs =>
            match pyOrJ (jLookup dfs "user_info") (.jobj dfs) with
            | .jobj ufs =>
              match pyOrJ (jLookup dfs "balance") (.jobj []) with
              | .jobj balfs =>
                some
                  { user_id :=
                      pyStr (jGetD ufs "user_id" (jGetD ufs "id" (.jstr ""))),
                    user_name :=
                      jGetD ufs "user_name" (jGetD ufs "name" (.jstr "")),
                    api_key :=
                      jGetD dfs "api_key" (jGetD ufs "api_key" (.jstr "")),
                    credit :=
                      jGetD balfs "credit" (jGetD dfs "credit" (.jnum 0)),
                    token :=
                      jGetD balfs "token" (jGetD dfs "token" (.jnum 0)),
                    role := jGetD ufs "role" (.jstr "user") }
              | _ => none
            | _ => none
          | _ => none
        | _ => none
    else
      none

/-- The identity-acceptance guard of the SSO callback (app.py lines 67-69):
`if not user_info or not user_info.get("user_id")` redirects to the login
page with an error, so an identity is accepted only when the exchange
succeeded and its subject id is a nonempty string. -/
def sso_callback_identity (resp : SsoResponse) : Option SsoUserInfo :=
  match exchange_sso_token resp with
  | none => none
  | some u => if u.user_id = "" then none else some u

/-- `hash_password` (auth.py lines 116-117): the SHA-256 hex digest of the
password, modelled as a concrete deterministic function of the password
string; only determinism and functional dependence on the input matter to the
claims. -/
def hash_password (password : String) : String :=
  "sha256-" ++ toString (strCode password)

/-- Python `str.strip()`: leading and trailing whitespace removed. -/
def pyStrip (s : String) : String :=
  ⟨((s.data.dropWhile Char.isWhitespace).reverse.dropWhile
      Char.isWhitespace).reverse⟩

/-- Python `str.lower()` (the flows here only exercise ASCII letters). -/
def pyLower (s : String) : String :=
  ⟨s.data.map Char.toLower⟩

/-- Python `str.replace(" ", "_")`. -/
def pyUnderscore (s : String) : String :=
  ⟨s.data.map (fun c => if c = ' ' then '_' else c)⟩

/-- The deterministic local subject id
`f"local_{username.lower().replace(' ', '_')}"` (app.py lines 104 and 147). -/
def derive_user_id (username : String) : String :=
  "local_" ++ pyUnderscore (pyLower username)

/-- A row of the `users` table (database.py SCHEMA, lines 10-23), without the
autoincrement rowid; a `Db` lists the rows in rowid (insertion) order, which
is the order an unordered `SELECT` scans them in. -/
structure UserRow where
  user_id : String
  user_name : String
  role : String
  credit : Int
  token : Int
  sso_token : String
  api_key : String
  created_at : String
  updated_at : String
deriving DecidableEq

/-- The user directory: rows in insertion order. -/
abbrev Db := List UserRow

/-- The `user_info` dict argument of `upsert_user`: `user_id` is accessed by
subscript (required); every other field is read with `.get` and a default,
modelled by optional fields. -/
structure UserInfoArg where
  user_id : String
  user_name : Option String := none
  role : Option String := none
  credit : Option Int := none
  token : Option Int := none
  api_key : Option String := none

/-- `upsert_user` (database.py lines 43-85).  The row is looked up by
`user_id` alone; when it exists, the `UPDATE` sets `user_name`, `sso_token`,
`api_key`, `credit`, `token` and `updated_at` (and nothing else); otherwise a
full row is inserted.  `now` stands for the `datetime.utcnow().isoformat()`
timestamp taken at the top of the function. -/
def upsert_user (info : UserInfoArg) (sso_token now : String) (db : Db) :
    Db :=
  match db.find? (fun r => r.user_id == info.user_id) with
  | some _ =>
    db.map (fun r =>
      if r.user_id == info.user_id then
        { r with
          user_name := info.user_name.getD "",
          sso_token := sso_token,
          api_key := info.api_key.getD "",
          credit := info.credit.getD 0,
          token := info.token.getD 0,
          updated_at := now }
      else r)
  | none =>
    db ++ [{ user_id := info.user_id, user_name := info.user_name.getD "",
             role := info.role.getD "user", credit := info.credit.getD 0,
             token := info.token.getD 0, sso_token := sso_token,
             api_key := info.api_key.getD "", created_at := now,
             updated_at := now }]

/-- `get_user` (database.py lines 88-97): fetch a row by `user_id`. -/
def get_user (db : Db) (user_id : String) : Option UserRow :=
  db.find? (fun r => r.user_id == user_id)

/-- An `HTTPException` raised by the app layer: status code and detail. -/
structure HTTPErr where
  status : Nat
  detail : String
deriving DecidableEq

/-- `local_login` (app.py lines 93-128).  The username is stripped; empty
username or password gives a 400; otherwise the directory is scanned for a
row with `(user_id = derived_id OR user_name = username) AND sso_token =
password_digest`; no row gives the constant 401, a row gives the row identity
plus a fresh session token (`t1`, `t2` being the clock readings inside
`create_jwt`). -/
def local_login (username0 password : String) (db : Db) (t1 t2 : Nat) :
    Except HTTPErr (String × String × Token) :=
  let username := pyStrip username0
  if username = "" ∨ password = "" then
    .error ⟨400, "Username and password are required"⟩
  else
    let pw_hash := hash_password password
    let user_id := derive_user_id username
    match db.find? (fun r =>
        (r.user_id == user_id || r.user_name == username) &&
          r.sso_token == pw_hash) with
    | none => .error ⟨401, "Invalid username or password"⟩
    | some r =>
      .ok (r.user_id, r.user_name, create_jwt r.user_id r.user_name r.role t1 t2)

/-- `local_register` (app.py lines 134-176).  Validation (nonempty fields,
password length at least 8), then a conflict check on
`user_id = derived_id OR user_name = username`, then the insert through
`upsert_user` with role `user` and the password digest as credential
material, and a fresh session token.  Returns the response together with the
directory state after the call. -/
def local_register (username0 password : String) (db : Db) (now : String)
    (t1 t2 : Nat) : Except HTTPErr (String × String × Token) × Db :=
  let username := pyStrip username0
  if username = "" ∨ password = "" then
    (.error ⟨400, "Username and password are required"⟩, db)
  else if password.length < 8 then
    (.error ⟨400, "Password must be at least 8 characters"⟩, db)
  else
    let pw_hash := hash_password password
    let user_id := derive_user_id username
    match db.find? (fun r =>
        r.user_id == user_id || r.user_name == username) with
    | some _ => (.error ⟨400, "Username already taken"⟩, db)
    | none =>
      (.ok (user_id, username, create_jwt user_id username "user" t1 t2),
       upsert_user
         { user_id := user_id, user_name := some username,
           role := some "user" } pw_hash now db)

/-- The request data read by `_extract_jwt_from_request` (auth.py lines
58-66): the `sci_token` cookie when the request carries one, and the token
following the `Bearer ` prefix of the `Authorization` header when the header
has that prefix (`none` covers both a missing header and one without the
prefix). -/
structure Request where
  cookie : Option Token
  bearer : Option Token

/-- `_extract_jwt_from_request` (auth.py lines 58-66): a truthy (nonempty)
cookie wins; otherwise the bearer header token if any. -/
def extract_jwt_from_request (req : Request) : Option Token :=
  match req.cookie with
  | some t => if t.isFalsy then req.bearer else some t
  | none => req.bearer

/-- The merged user context built by `_build_user_dict` (auth.py lines
123-135). -/
structure UserCtx where
  user_id : String
  user_name : String
  role : String
  credit : Option Int
  token : Option Int
deriving DecidableEq

/-- `_build_user_dict` (auth.py lines 123-135): token claims are the
baseline; when a directory row exists, its nonempty name and role override
the claims (`db_user.get(...) or ...`) and its entitlement fields are
added. -/
def build_user_dict (p : Payload) (db_user : Option UserRow) : UserCtx :=
  match db_user with
  | none =>
    { user_id := p.sub, user_name := p.name, role := p.role,
      credit := none, token := none }
  | some r =>
    { user_id := p.sub,
      user_name := if r.user_name != "" then r.user_name else p.name,
      role := if r.role != "" then r.role else p.role,
      credit := some r.credit,
      token := some r.token }

/-- `get_current_user` (auth.py lines 138-149): the required-authentication
dependency.  `if not token` (absent or empty) raises 401
"Not authenticated"; a token that fails verification raises 401
"Invalid or expired token"; otherwise the merged user context is returned. -/
def get_current_user (req : Request) (db : Db) (now : Nat) :
    Except HTTPErr UserCtx :=
  match extract_jwt_from_request req with
  | none => .error ⟨401, "Not authenticated"⟩
  | some t =>
    if t.isFalsy then .error ⟨401, "Not authenticated"⟩
    else
      match verify_jwt t now with
      | none => .error ⟨401, "Invalid or expired token"⟩
      | some payload =>
        .ok (build_user_dict payload (get_user db payload.sub))

/-- `get_optional_user` (auth.py lines 152-163): identical to
`get_current_user` except that both failure points return `None` instead of
raising. -/
def get_optional_user (req : Request) (db : Db) (now : Nat) :
    Option UserCtx :=
  match extract_jwt_from_request req with
  | none => none
  | some t =>
    if t.isFalsy then none
    else
      match verify_jwt t now with
      | none => none
      | some payload =>
        some (build_user_dict payload (get_user db payload.sub))

/-- The success condition of claim C4 transcribed as the claim words it: the
directory holds a record whose `subject_id` OR `display_name` equals the
provided username and whose credential material equals the digest of the
provided password. -/
def loginClaimMatch (db : Db) (username password : String) : Prop :=
  ∃ r ∈ db, (r.user_id = username ∨ r.user_name = username) ∧
    r.sso_token = hash_password password

/-- The directory row inserted by a successful local registration: derived
subject id, stripped username as display name, role `user`, password digest
as credential material (`username` here is already stripped). -/
def registeredRow (username password now : String) : UserRow :=
  { user_id := derive_user_id username, user_name := username,
    role := "user", credit := 0, token := 0,
    sso_token := hash_password password, api_key := "",
    created_at := now, updated_at := now }

/-- Directory state for the C4 counterexample: one row whose subject id is
the derived id for username `Alice` while its display name is `Bob`, holding
the digest of `password123` as credential material. -/
def c4_db : Db :=
  [{ user_id := "local_alice", user_name := "Bob", role := "user",
     credit := 0, token := 0, sso_token := hash_password "password123",
     api_key := "", created_at := "T0", updated_at := "T0" }]

/-- Stored row for the C6 scenario: an existing record with role `admin`. -/
def c6_row : UserRow :=
  { user_id := "u1", user_name := "Old", role := "admin", credit := 1,
    token := 2, sso_token := "cred0", api_key := "k0",
    created_at := "T0", updated_at := "T0" }

/-- Directory state for the C6 scenario. -/
def c6_db : Db := [c6_row]

/-- Upsert argument for the C6 scenario: the same subject id with role
`user` and fresh values for every other field. -/
def c6_info : UserInfoArg :=
  { user_id := "u1", user_name := some "New", role := some "user",
    credit := some 5, token := some 6, api_key := some "k2" }

/-- Request for the C9 witness: a valid session token in the cookie. -/
def c9_req : Request :=
  { cookie := some (create_jwt "ua" "na" "user" 0 0), bearer := none }

/-- C2 (amended): verifying a fresh token minted by `create_jwt` succeeds and
returns exactly the input subject id, name and role, with `iat` equal to the
first clock reading and `exp` equal to the second clock reading plus 7 days;
when the two readings coincide the expiry is exactly `iat + 7*86400`. -/
theorem c2_issue_verify_roundtrip (uid uname role : String) (t1 t2 now : Nat)
    (hfresh : now < t2 + JWT_EXPIRY) :
    verify_jwt (create_jwt uid uname role t1 t2) now =
      some { sub := uid, name := uname, role := role, iat := t1,
             exp := t2 + JWT_EXPIRY } ∧
    (t1 = t2 → t2 + JWT_EXPIRY = t1 + 7 * 86400) := by
  constructor
  · simp [create_jwt, verify_jwt, Nat.not_le.mpr hfresh]
  · intro h
    subst h
    norm_num [JWT_EXPIRY]

/-- Witness for `c2_issue_verify_roundtrip` at concrete inputs. -/
theorem c2_issue_verify_roundtrip_witness :
    verify_jwt (create_jwt "alice" "Alice" "user" 10 10) 10 =
      some { sub := "alice", name := "Alice", role := "user", iat := 10,
             exp := 10 + JWT_EXPIRY } ∧
    10 + JWT_EXPIRY = 10 + 7 * 86400 :=
  ⟨(c2_issue_verify_roundtrip "alice" "Alice" "user" 10 10 10
      (by norm_num [JWT_EXPIRY])).1,
   (c2_issue_verify_roundtrip "alice" "Alice" "user" 10 10 10
      (by norm_num [JWT_EXPIRY])).2 rfl⟩

/-- C2 counterexample: when the two `time.time()` readings inside `create_jwt`
differ (the clock ticks between building `iat` and `exp`), the verified claim
set has `exp = 604801` while `iat + 7*86400 = 604800`: the expiry is not
7 days after the issued-at timestamp. -/
theorem c2_counterexample :
    verify_jwt (create_jwt "u" "n" "user" 0 1) 1 =
      some { sub := "u", name := "n", role := "user", iat := 0,
             exp := 604801 } ∧
    (604801 : Nat) ≠ 0 + 7 * 86400 := by
  refine ⟨?_, by norm_num⟩
  rfl

/-- C3: `verify_jwt` (a total function, hence never raising to its caller)
returns `none` exactly on the invalid cases — malformed encoding, signature
mismatch, or elapsed expiry — and in particular a token with a correct
signature whose expiry has elapsed is rejected. -/
theorem c3_verify_none_iff (t : Token) (now : Nat) :
    (verify_jwt t now = none ↔ invalidToken t now) ∧
    (∀ p : Payload, p.exp ≤ now →
      verify_jwt (.signed p (jwt_sign p JWT_SECRET)) now = none) := by
  constructor
  · cases t with
    | emptyStr => simp [verify_jwt, invalidToken]
    | malformed n => simp [verify_jwt, invalidToken]
    | signed p sig =>
      by_cases hs : sig = jwt_sign p JWT_SECRET
      · subst hs
        by_cases he : p.exp ≤ now <;> simp [verify_jwt, invalidToken, he]
      · simp [verify_jwt, invalidToken, hs]
  · intro p hp
    simp [verify_jwt, hp]

/-- Witness for `c3_verify_none_iff`: the boundary case of the spec — a
correctly signed token verified exactly at its expiry timestamp
(`exp = iat + 7*86400`) is rejected. -/
theorem c3_verify_none_iff_witness :
    verify_jwt
      (.signed { sub := "u", name := "", role := "user", iat := 0,
                 exp := 604800 }
        (jwt_sign { sub := "u", name := "", role := "user", iat := 0,
                    exp := 604800 } JWT_SECRET)) 604800 = none :=
  (c3_verify_none_iff
    (.signed { sub := "u", name := "", role := "user", iat := 0,
               exp := 604800 }
      (jwt_sign { sub := "u", name := "", role := "user", iat := 0,
                  exp := 604800 } JWT_SECRET)) 604800).2 _ (by norm_num)

/-- C1 counterexample: a 200 response whose body is the empty JSON object —
so the extracted subject id is empty under both envelope shapes — does NOT
make `exchange_sso_token` return `None`: it returns an identity dict whose
`user_id` is the empty string. -/
theorem c1_counterexample :
    (exchange_sso_token (.ok 200 (some (.jobj [])))).isSome = true ∧
    (exchange_sso_token (.ok 200 (some (.jobj [])))).map SsoUserInfo.user_id =
      some "" := by
  exact ⟨rfl, rfl⟩

/-- C1 (amended): `exchange_sso_token` returns `None` on a network error, on
any non-200 response, on an unparseable body, and on a 200 body that is not
a JSON object; on a 200 object body it can return an identity dict whose
subject id is empty — the empty-subject rejection is performed by the caller
(`sso_callback`), whose guard accepts an identity only when the subject id is
nonempty. -/
theorem c1_exchange_failure_modes :
    exchange_sso_token .netError = none ∧
    (∀ (s : Nat) (b : Option JVal), s ≠ 200 →
      exchange_sso_token (.ok s b) = none) ∧
    exchange_sso_token (.ok 200 none) = none ∧
    (∀ b : JVal, (∀ fs, b ≠ JVal.jobj fs) →
      exchange_sso_token (.ok 200 (some b)) = none) ∧
    (∀ (resp : SsoResponse) (u : SsoUserInfo),
      sso_callback_identity resp = some u → u.user_id ≠ "") := by
  refine ⟨rfl, ?_, rfl, ?_, ?_⟩
  · intro s b hs
    simp [exchange_sso_token, hs]
  · intro b hb
    cases b with
    | jobj fs => exact absurd rfl (hb fs)
    | jnull => rfl
    | jbool x => rfl
    | jnum x => rfl
    | jstr x => rfl
    | jarr x => rfl
  · intro resp u hu
    cases hex : exchange_sso_token resp with
    | none => simp [sso_callback_identity, hex] at hu
    | some v =>
      simp only [sso_callback_identity, hex] at hu
      by_cases hv : v.user_id = ""
      · rw [if_pos hv] at hu
        exact absurd hu (by simp)
      · rw [if_neg hv] at hu
        cases hu
        exact hv

/-- Witness for `c1_exchange_failure_modes`: a 500 response and a 200 response
with a JSON-array body both yield `None`, and the callback accepts a concrete
well-formed identity, whose subject id is nonempty. -/
theorem c1_exchange_failure_modes_witness :
    exchange_sso_token (.ok 500 (some (.jobj []))) = none ∧
    exchange_sso_token (.ok 200 (some (.jarr []))) = none ∧
    ("u1" : String) ≠ "" :=
  ⟨c1_exchange_failure_modes.2.1 500 (some (.jobj [])) (by norm_num),
   c1_exchange_failure_modes.2.2.2.1 (.jarr []) (fun fs h => by cases h),
   c1_exchange_failure_modes.2.2.2.2 (.ok 200 (some (.jobj [("user_id", .jstr "u1")])))
     { user_id := "u1", user_name := .jstr "", api_key := .jstr "",
       credit := .jnum 0, token := .jnum 0, role := .jstr "user" } rfl⟩

/-- Helper: a successful registration implies that validation passed, that no
directory row conflicted, that the returned subject id is the derived id and
the returned name the stripped username, and that the resulting directory is
the old one with the new row appended. -/
theorem register_ok_inversion (u p : String) (db : Db) (now : String)
    (t1 t2 : Nat) (uid un : String) (tok : Token)
    (hreg : (local_register u p db now t1 t2).1 = .ok (uid, un, tok)) :
    pyStrip u ≠ "" ∧ p ≠ "" ∧ ¬ p.length < 8 ∧
    db.find? (fun r => r.user_id == derive_user_id (pyStrip u) ||
      r.user_name == pyStrip u) = none ∧
    uid = derive_user_id (pyStrip u) ∧ un = pyStrip u ∧
    (local_register u p db now t1 t2).2 =
      db ++ [registeredRow (pyStrip u) p now] := by
  by_cases h1 : pyStrip u = "" ∨ p = ""
  · rcases h1 with hA | hB
    · simp [local_register, hA] at hreg
    · simp [local_register, hB] at hreg
  · push_neg at h1
    obtain ⟨hA, hB⟩ := h1
    by_cases h2 : p.length < 8
    · simp [local_register, hA, hB, h2] at hreg
    · cases hfind : db.find? (fun r =>
          r.user_id == derive_user_id (pyStrip u) ||
            r.user_name == pyStrip u) with
      | some r => simp [local_register, hA, hB, h2, hfind] at hreg
      | none =>
        have hfind0 : db.find?
            (fun r => r.user_id == derive_user_id (pyStrip u)) = none := by
          rw [List.find?_eq_none]
          intro x hx
          have hxno := List.find?_eq_none.mp hfind x hx
          simp only [Bool.or_eq_true, beq_iff_eq, not_or] at hxno
          simp only [beq_iff_eq]
          exact hxno.1
        have hids : uid = derive_user_id (pyStrip u) ∧ un = pyStrip u := by
          simp [local_register, hA, hB, h2, hfind] at hreg
          exact ⟨hreg.1.symm, hreg.2.1.symm⟩
        refine ⟨hA, hB, h2, rfl, hids.1, hids.2, ?_⟩
        simp [local_register, hA, hB, h2, hfind, upsert_user, hfind0,
          registeredRow]

/-- Helper: when the stripped username and password are nonempty and the
directory scan finds a row, `local_login` returns that row's identity with a
fresh token. -/
theorem login_finds_row (username0 password : String) (db : Db)
    (t1 t2 : Nat) (r : UserRow)
    (hu : pyStrip username0 ≠ "") (hp : password ≠ "")
    (hfind : db.find? (fun x =>
        (x.user_id == derive_user_id (pyStrip username0) ||
          x.user_name == pyStrip username0) &&
        x.sso_token == hash_password password) = some r) :
    local_login username0 password db t1 t2 =
      .ok (r.user_id, r.user_name,
           create_jwt r.user_id r.user_name r.role t1 t2) := by
  simp [local_login, hu, hp, hfind]

/-- Helper: when the stripped username and password are nonempty and the
directory scan finds no row, `local_login` returns the constant 401. -/
theorem login_no_row (username0 password : String) (db : Db)
    (t1 t2 : Nat)
    (hu : pyStrip username0 ≠ "") (hp : password ≠ "")
    (hfind : db.find? (fun x =>
        (x.user_id == derive_user_id (pyStrip username0) ||
          x.user_name == pyStrip username0) &&
        x.sso_token == hash_password password) = none) :
    local_login username0 password db t1 t2 =
      .error ⟨401, "Invalid username or password"⟩ := by
  simp [local_login, hu, hp, hfind]

/-- C4 counterexample: `local_login "Alice" "password123"` succeeds on a
directory in which no record's subject id or display name equals the provided
username `Alice` — the code compares the stored subject id against the
derived id `local_alice`, not against the provided username, so success is
not equivalent to the claim's match condition. -/
theorem c4_counterexample :
    local_login "Alice" "password123" c4_db 0 0 =
      .ok ("local_alice", "Bob",
           create_jwt "local_alice" "Bob" "user" 0 0) ∧
    ¬ loginClaimMatch c4_db "Alice" "password123" := by
  constructor
  · rfl
  · rintro ⟨r, hr, hid, hcred⟩
    simp only [c4_db, List.mem_singleton] at hr
    subst hr
    rcases hid with h | h <;> simp at h

/-- C4 (amended): for a nonempty stripped username and nonempty password,
local login succeeds exactly when the directory holds a record whose
subject id equals the DERIVED id (`local_` + lowercased username with spaces
as underscores) OR whose display name equals the provided username, AND whose
credential material equals the password digest; on no such match it returns
the one constant 401 message, identical for a wrong password and for a
nonexistent username.  (Empty inputs are rejected earlier with a 400.) -/
theorem c4_login_spec (username0 password : String) (db : Db) (t1 t2 : Nat)
    (hu : pyStrip username0 ≠ "") (hp : password ≠ "") :
    ((∃ v, local_login username0 password db t1 t2 = .ok v) ↔
      ∃ r ∈ db,
        (r.user_id = derive_user_id (pyStrip username0) ∨
          r.user_name = pyStrip username0) ∧
        r.sso_token = hash_password password) ∧
    ((∀ r ∈ db,
        ¬((r.user_id = derive_user_id (pyStrip username0) ∨
            r.user_name = pyStrip username0) ∧
          r.sso_token = hash_password password)) →
      local_login username0 password db t1 t2 =
        .error ⟨401, "Invalid username or password"⟩) := by
  constructor
  · constructor
    · rintro ⟨v, hv⟩
      cases hfind : db.find? (fun x =>
          (x.user_id == derive_user_id (pyStrip username0) ||
            x.user_name == pyStrip username0) &&
          x.sso_token == hash_password password) with
      | none =>
        rw [login_no_row username0 password db t1 t2 hu hp hfind] at hv
        exact absurd hv (by simp)
      | some r =>
        refine ⟨r, List.mem_of_find?_eq_some hfind, ?_⟩
        have := List.find?_some hfind
        simpa using this
    · rintro ⟨r, hr, hmatch, hcred⟩
      have hsome : (db.find? (fun x =>
          (x.user_id == derive_user_id (pyStrip username0) ||
            x.user_name == pyStrip username0) &&
          x.sso_token == hash_password password)).isSome := by
        refine List.find?_isSome.mpr ⟨r, hr, ?_⟩
        simp [hcred]
        rcases hmatch with h | h <;> simp [h]
      obtain ⟨r0, hr0⟩ := Option.isSome_iff_exists.mp hsome
      exact ⟨_, login_finds_row username0 password db t1 t2 r0 hu hp hr0⟩
  · intro hno
    refine login_no_row username0 password db t1 t2 hu hp ?_
    rw [List.find?_eq_none]
    intro x hx
    have := hno x hx
    simp only [Bool.and_eq_true, Bool.or_eq_true, beq_iff_eq]
    rintro ⟨hor, hcred⟩
    exact this ⟨hor, hcred⟩

/-- Witness for `c4_login_spec` on the concrete directory of the C4
scenario: a matching record exists, and login indeed succeeds. -/
theorem c4_login_spec_witness :
    ∃ v, local_login "Alice" "password123" c4_db 1 2 = .ok v :=
  (c4_login_spec "Alice" "password123" c4_db 1 2 (by decide)
      (by decide)).1.mpr
    ⟨{ user_id := "local_alice", user_name := "Bob", role := "user",
       credit := 0, token := 0, sso_token := hash_password "password123",
       api_key := "", created_at := "T0", updated_at := "T0" },
     by simp [c4_db], by simp [derive_user_id, pyLower, pyUnderscore, pyStrip], rfl⟩

/-- C5: `local_register` returns InvalidInput (400) on an empty stripped
username or empty password, InvalidInput (400) on a password shorter than
8 characters, Conflict (400, "Username already taken") when some record has
the derived subject id or the provided display name, and otherwise appends a
fresh record with role `user` and the password digest as credential material
while minting a session token. -/
theorem c5_register_spec (username0 password : String) (db : Db)
    (now : String) (t1 t2 : Nat) :
    ((pyStrip username0 = "" ∨ password = "") →
      local_register username0 password db now t1 t2 =
        (.error ⟨400, "Username and password are required"⟩, db)) ∧
    (pyStrip username0 ≠ "" → password ≠ "" → password.length < 8 →
      local_register username0 password db now t1 t2 =
        (.error ⟨400, "Password must be at least 8 characters"⟩, db)) ∧
    (pyStrip username0 ≠ "" → password ≠ "" → ¬ password.length < 8 →
      (∃ r ∈ db, r.user_id = derive_user_id (pyStrip username0) ∨
        r.user_name = pyStrip username0) →
      local_register username0 password db now t1 t2 =
        (.error ⟨400, "Username already taken"⟩, db)) ∧
    (pyStrip username0 ≠ "" → password ≠ "" → ¬ password.length < 8 →
      (∀ r ∈ db, ¬(r.user_id = derive_user_id (pyStrip username0) ∨
        r.user_name = pyStrip username0)) →
      local_register username0 password db now t1 t2 =
        (.ok (derive_user_id (pyStrip username0), pyStrip username0,
              create_jwt (derive_user_id (pyStrip username0))
                (pyStrip username0) "user" t1 t2),
         db ++ [{ user_id := derive_user_id (pyStrip username0),
                  user_name := pyStrip username0, role := "user",
                  credit := 0, token := 0,
                  sso_token := hash_password password, api_key := "",
                  created_at := now, updated_at := now }])) := by
  refine ⟨?_, ?_, ?_, ?_⟩
  · rintro (hA | hB)
    · simp [local_register, hA]
    · simp [local_register, hB]
  · intro hA hB h2
    simp [local_register, hA, hB, h2]
  · intro hA hB h2 hconf
    have hsome : (db.find? (fun r =>
        r.user_id == derive_user_id (pyStrip username0) ||
          r.user_name == pyStrip username0)).isSome := by
      obtain ⟨r, hr, hor⟩ := hconf
      refine List.find?_isSome.mpr ⟨r, hr, ?_⟩
      rcases hor with h | h <;> simp [h]
    obtain ⟨r0, hr0⟩ := Option.isSome_iff_exists.mp hsome
    simp [local_register, hA, hB, h2, hr0]
  · intro hA hB h2 hnoconf
    have hfind : db.find? (fun r =>
        r.user_id == derive_user_id (pyStrip username0) ||
          r.user_name == pyStrip username0) = none := by
      rw [List.find?_eq_none]
      intro x hx
      have := hnoconf x hx
      simp only [Bool.or_eq_true, beq_iff_eq]
      exact fun h => this h
    have hfind0 : db.find? (fun r =>
        r.user_id == derive_user_id (pyStrip username0)) = none := by
      rw [List.find?_eq_none]
      intro x hx
      have := hnoconf x hx
      simp only [beq_iff_eq]
      exact fun h => this (Or.inl h)
    simp [local_register, hA, hB, h2, hfind, upsert_user, hfind0]

/-- Witness for `c5_register_spec`: registering `Alice` with `password123`
on the empty directory inserts the expected record. -/
theorem c5_register_spec_witness :
    local_register "Alice" "password123" [] "T0" 3 4 =
      (.ok ("local_alice", "Alice",
            create_jwt "local_alice" "Alice" "user" 3 4),
       [{ user_id := "local_alice", user_name := "Alice", role := "user",
          credit := 0, token := 0,
          sso_token := hash_password "password123", api_key := "",
          created_at := "T0", updated_at := "T0" }]) :=
  (c5_register_spec "Alice" "password123" [] "T0" 3 4).2.2.2
    (by decide) (by decide) (by decide) (by simp)

/-- C7: every failing path of `local_register` (InvalidInput for empty
fields, InvalidInput for a short password, Conflict for a duplicate) leaves
the directory exactly as it was: no write happens before validation
succeeds. -/
theorem c7_register_failure_preserves_directory (username0 password : String)
    (db : Db) (now : String) (t1 t2 : Nat) (e : HTTPErr)
    (h : (local_register username0 password db now t1 t2).1 = .error e) :
    (local_register username0 password db now t1 t2).2 = db := by
  by_cases h1 : pyStrip username0 = "" ∨ password = ""
  · rcases h1 with hA | hB
    · simp [local_register, hA]
    · simp [local_register, hB]
  · push_neg at h1
    obtain ⟨hA, hB⟩ := h1
    by_cases h2 : password.length < 8
    · simp [local_register, hA, hB, h2]
    · cases hfind : db.find? (fun r =>
          r.user_id == derive_user_id (pyStrip username0) ||
            r.user_name == pyStrip username0) with
      | some r => simp [local_register, hA, hB, h2, hfind]
      | none => simp [local_register, hA, hB, h2, hfind] at h

/-- Witness for `c7_register_failure_preserves_directory`: the spec's own
example — registering `Bob` with the 5-character password `short` fails and
creates no record. -/
theorem c7_register_failure_preserves_directory_witness :
    (local_register "Bob" "short" [] "T0" 0 0).2 = ([] : Db) :=
  c7_register_failure_preserves_directory "Bob" "short" [] "T0" 0 0
    ⟨400, "Password must be at least 8 characters"⟩ rfl

/-- C6 counterexample: upserting a record whose role is `user` over an
existing record with the same subject id and role `admin` leaves the stored
role at `admin` — the `UPDATE` statement of `upsert_user` does not set
`role`, so not every non-key field is replaced. -/
theorem c6_counterexample :
    (upsert_user c6_info "cred2" "T1" c6_db).map UserRow.role = ["admin"] ∧
    c6_info.role = some "user" ∧ ("admin" : String) ≠ "user" :=
  ⟨rfl, rfl, by decide⟩

/-- C6 (amended): `subject_id` is the sole upsert key, and on an update the
display name, credential material, API key, credit, usage token count and
`updated_at` are replaced by the new record's values — but `role` (and
`created_at`) are preserved from the stored record; `role` is only written at
first insert. -/
theorem c6_upsert_sole_key (info : UserInfoArg) (tok now : String) (db : Db)
    (r : UserRow) (hmem : r ∈ db) (hid : r.user_id = info.user_id) :
    ∃ r' ∈ upsert_user info tok now db,
      r'.user_id = r.user_id ∧
      r'.user_name = info.user_name.getD "" ∧
      r'.sso_token = tok ∧
      r'.api_key = info.api_key.getD "" ∧
      r'.credit = info.credit.getD 0 ∧
      r'.token = info.token.getD 0 ∧
      r'.updated_at = now ∧
      r'.role = r.role ∧
      r'.created_at = r.created_at := by
  have hsome : (db.find? (fun x => x.user_id == info.user_id)).isSome :=
    List.find?_isSome.mpr ⟨r, hmem, by simp [hid]⟩
  obtain ⟨r0, hr0⟩ := Option.isSome_iff_exists.mp hsome
  unfold upsert_user
  rw [hr0]
  refine ⟨_, List.mem_map_of_mem _ hmem, ?_⟩
  simp [hid]

/-- Witness for `c6_upsert_sole_key` on the concrete C6 scenario. -/
theorem c6_upsert_sole_key_witness :
    ∃ r' ∈ upsert_user c6_info "cred2" "T1" c6_db,
      r'.user_id = c6_row.user_id ∧
      r'.user_name = c6_info.user_name.getD "" ∧
      r'.sso_token = "cred2" ∧
      r'.api_key = c6_info.api_key.getD "" ∧
      r'.credit = c6_info.credit.getD 0 ∧
      r'.token = c6_info.token.getD 0 ∧
      r'.updated_at = "T1" ∧
      r'.role = c6_row.role ∧
      r'.created_at = c6_row.created_at :=
  c6_upsert_sole_key c6_info "cred2" "T1" c6_db c6_row
    (by simp [c6_db]) rfl

/-- C8: a successful `local_register(u, p)` followed by `local_login(u, p)`
on the resulting directory succeeds and returns the very subject id the
registration returned (together with the stripped username and a fresh
session token). -/
theorem c8_register_then_login (u p : String) (db : Db) (now : String)
    (t1 t2 t3 t4 : Nat) (uid un : String) (tok : Token)
    (hreg : (local_register u p db now t1 t2).1 = .ok (uid, un, tok)) :
    local_login u p (local_register u p db now t1 t2).2 t3 t4 =
      .ok (uid, pyStrip u, create_jwt uid (pyStrip u) "user" t3 t4) := by
  obtain ⟨hA, hB, _h8, hfind, huid, _hun, hdb2⟩ :=
    register_ok_inversion u p db now t1 t2 uid un tok hreg
  rw [hdb2]
  have hnomain := List.find?_eq_none.mp hfind
  have hfindL : db.find? (fun x =>
      (x.user_id == derive_user_id (pyStrip u) ||
        x.user_name == pyStrip u) &&
      x.sso_token == hash_password p) = none := by
    rw [List.find?_eq_none]
    intro x hx
    have := hnomain x hx
    simp only [Bool.or_eq_true, beq_iff_eq, not_or] at this
    simp only [Bool.and_eq_true, Bool.or_eq_true, beq_iff_eq]
    rintro ⟨h | h, -⟩
    · exact this.1 h
    · exact this.2 h
  have hfull : (db ++ [registeredRow (pyStrip u) p now]).find? (fun x =>
      (x.user_id == derive_user_id (pyStrip u) ||
        x.user_name == pyStrip u) &&
      x.sso_token == hash_password p) =
      some (registeredRow (pyStrip u) p now) := by
    rw [List.find?_append, hfindL]
    simp [registeredRow]
  rw [login_finds_row u p _ t3 t4 _ hA hB hfull, huid]
  rfl

/-- Witness for `c8_register_then_login`: register then login with
`Alice` / `password123` on the empty directory. -/
theorem c8_register_then_login_witness :
    local_login "Alice" "password123"
      (local_register "Alice" "password123" [] "T0" 0 0).2 1 1 =
      .ok ("local_alice", "Alice",
           create_jwt "local_alice" "Alice" "user" 1 1) :=
  c8_register_then_login "Alice" "password123" [] "T0" 0 0 1 1
    "local_alice" "Alice" (create_jwt "local_alice" "Alice" "user" 0 0) rfl

/-- C10: after a successful registration of username `u`, local login
succeeds with any username that normalizes to the same derived subject id —
even one differing from the stored display name case-sensitively — and
returns the registration's subject id, because the lookup's `user_id`
disjunct matches the derived id.  (The pre-existing rows are assumed not to
collide on `(display_name, credential digest)` with the variant username,
which the registration's conflict check cannot rule out by itself.) -/
theorem c10_login_normalized_username (u u2 p : String) (db : Db)
    (now : String) (t1 t2 t3 t4 : Nat) (uid un : String) (tok : Token)
    (hreg : (local_register u p db now t1 t2).1 = .ok (uid, un, tok))
    (hnorm : derive_user_id (pyStrip u2) = derive_user_id (pyStrip u))
    (hu2 : pyStrip u2 ≠ "")
    (hnocollide : ∀ r ∈ db,
      ¬(r.user_name = pyStrip u2 ∧ r.sso_token = hash_password p)) :
    local_login u2 p (local_register u p db now t1 t2).2 t3 t4 =
      .ok (uid, pyStrip u, create_jwt uid (pyStrip u) "user" t3 t4) := by
  obtain ⟨hA, hB, _h8, hfind, huid, _hun, hdb2⟩ :=
    register_ok_inversion u p db now t1 t2 uid un tok hreg
  rw [hdb2]
  have hnomain := List.find?_eq_none.mp hfind
  have hfindL : db.find? (fun x =>
      (x.user_id == derive_user_id (pyStrip u2) ||
        x.user_name == pyStrip u2) &&
      x.sso_token == hash_password p) = none := by
    rw [List.find?_eq_none]
    intro x hx
    have hm := hnomain x hx
    simp only [Bool.or_eq_true, beq_iff_eq, not_or] at hm
    have hc := hnocollide x hx
    simp only [Bool.and_eq_true, Bool.or_eq_true, beq_iff_eq]
    rintro ⟨h | h, hcred⟩
    · rw [hnorm] at h
      exact hm.1 h
    · exact hc ⟨h, hcred⟩
  have hfull : (db ++ [registeredRow (pyStrip u) p now]).find? (fun x =>
      (x.user_id == derive_user_id (pyStrip u2) ||
        x.user_name == pyStrip u2) &&
      x.sso_token == hash_password p) =
      some (registeredRow (pyStrip u) p now) := by
    rw [List.find?_append, hfindL]
    simp [registeredRow, hnorm]
  rw [login_finds_row u2 p _ t3 t4 _ hu2 hB hfull, huid]
  rfl

/-- Witness for `c10_login_normalized_username`: register `Alice`, then log
in as `ALICE` — a username differing from the stored display name
case-sensitively but normalizing to the same derived id — successfully and
with the same subject id. -/
theorem c10_login_normalized_username_witness :
    local_login "ALICE" "password123"
      (local_register "Alice" "password123" [] "T0" 0 0).2 1 1 =
      .ok ("local_alice", "Alice",
           create_jwt "local_alice" "Alice" "user" 1 1) ∧
    ("ALICE" : String) ≠ "Alice" :=
  ⟨c10_login_normalized_username "Alice" "ALICE" "password123" [] "T0"
      0 0 1 1 "local_alice" "Alice"
      (create_jwt "local_alice" "Alice" "user" 0 0) rfl (by decide)
      (by decide) (by simp),
   by decide⟩

/-- C9: the optional and required authentication dependencies agree —
`get_optional_user` returns `None` exactly when `get_current_user` raises an
HTTP 401 error, and whenever `get_optional_user` returns a user context,
`get_current_user` returns the identical one. -/
theorem c9_required_optional_agree (req : Request) (db : Db) (now : Nat) :
    (get_optional_user req db now = none ↔
      ∃ d, get_current_user req db now = .error ⟨401, d⟩) ∧
    (∀ u, get_optional_user req db now = some u →
      get_current_user req db now = .ok u) := by
  cases hex : extract_jwt_from_request req with
  | none => simp [get_current_user, get_optional_user, hex]
  | some t =>
    by_cases hf : t.isFalsy
    · simp [get_current_user, get_optional_user, hex, hf]
    · cases hv : verify_jwt t now with
      | none => simp [get_current_user, get_optional_user, hex, hf, hv]
      | some payload =>
        simp [get_current_user, get_optional_user, hex, hf, hv]

/-- Witness for `c9_required_optional_agree`: with a valid cookie token both
dependencies return the same user context. -/
theorem c9_required_optional_agree_witness :
    get_optional_user c9_req [] 0 =
      some { user_id := "ua", user_name := "na", role := "user",
             credit := none, token := none } ∧
    get_current_user c9_req [] 0 =
      .ok { user_id := "ua", user_name := "na", role := "user",
            credit := none, token := none } :=
  ⟨rfl, (c9_required_optional_agree c9_req [] 0).2 _ rfl⟩
